import Mathlib

/-!
# Verification of the mattress_market order-settlement flow

Shallow embedding of the order-creation and payment-callback code of the
`mattress_market` Django backend (`orders/serializers.py`, `orders/views.py`,
`orders/models.py`, `site_config/models.py`).

Money (`Decimal`) is modelled as `ℚ`; `Decimal.quantize(Decimal('.01'))` with
the default context rounds half-to-even, which is modelled by `quantize2`.
Python exceptions are modelled with `Except PyExn`.
-/

namespace MattressMarket

/-- Python exceptions that the embedded code can raise. -/
inductive PyExn where
  | attributeError
  | valueError
  | fieldError
  | databaseError
deriving Repr, DecidableEq

/-! ## Data model (faithful to the fields the models declare)

`OrderModel` (orders/models.py, lines 18–58) declares exactly:
`order_id`, `user`, `customer_name`, `customer_email`, `customer_phone`,
`shipping_address`, `payment_method`, `status`, `total_amount`,
`created_at`, `updated_at`.  It declares **no** `is_paid`, `payment_status`,
`payment_reference`, `paid_at` or `logistic_price` field, although
`orders/views.py` and `orders/serializers.py` refer to those names. -/

/-- A row of `OrderModel`. Timestamps are omitted; every executed
`save()`/`objects.create()` is counted in `World.saveCount` instead
(mirroring `updated_at = auto_now`). -/
structure OrderRow where
  order_id : String
  user : Option Nat
  customer_name : String
  customer_email : String
  customer_phone : String
  shipping_address : String
  payment_method : String
  status : String
  total_amount : ℚ
deriving Repr, DecidableEq

/-- A row of `OrderItemModel` (orders/models.py, lines 61–73); the
foreign keys are stored as the parent order's `order_id` and the
variant's numeric id (`on_delete=SET_NULL` makes it nullable). -/
structure ItemRow where
  order_oid : String
  product_variant : Option Nat
  product_name : String
  size : String
  price : ℚ
  quantity : ℤ
deriving Repr, DecidableEq

/-- A row of `SettingsModel` (site_config/models.py, lines 30–46).
The model declares exactly these four fields — in particular it declares
**no** `shipping_fee` field, although `orders/serializers.py` line 69
reads `settings_obj.shipping_fee`. -/
structure SettingsRow where
  allow_pay_on_delivery : Bool
  allow_online_payment : Bool
  free_shipping_threshold : ℚ
  terms_and_conditions : String
deriving Repr, DecidableEq

/-- A row of `ProductVariantModel` (products/models.py, line 80): only the
fields the order flow reads. -/
structure ProductVariant where
  id : Nat
  price : ℚ
deriving Repr, DecidableEq

/-- The persistent store plus the observable side effects of a request:
`saveCount` counts executed order INSERT/UPDATE statements and
`emailsSent` counts confirmation emails actually dispatched. -/
structure World where
  orders : List OrderRow
  items : List ItemRow
  saveCount : Nat
  emailsSent : Nat
deriving Repr, DecidableEq

/-! ## Currency rounding

`(subtotal + logistic_fee).quantize(Decimal('.01'))` (orders/serializers.py,
line 135) uses Python's default `ROUND_HALF_EVEN`. -/

/-- Round a rational to the nearest integer, ties to the even integer —
the rounding `Decimal.quantize` performs with the default context. -/
def roundHalfEvenInt (x : ℚ) : ℤ :=
  let n := ⌊x⌋
  if x - n < 1/2 then n
  else if 1/2 < x - n then n + 1
  else if n % 2 = 0 then n else n + 1

/-- `q.quantize(Decimal('.01'))` with the default (half-even) context. -/
def quantize2 (q : ℚ) : ℚ := (roundHalfEvenInt (q * 100) : ℚ) / 100

/-- `order.total_amount = (subtotal + logistic_fee).quantize(Decimal('.01'))`
(orders/serializers.py, line 135). -/
def compute_total_amount (subtotal fee : ℚ) : ℚ := quantize2 (subtotal + fee)

/-- Modelled from the spec: "rounded to 2 decimal places …, using
round-half-up semantics at the cent boundary" — round the cents up on a
tie.  Stated only to compare with what the source computes. -/
def specRoundHalfUp2 (q : ℚ) : ℚ := ((⌊q * 100 + 1/2⌋ : ℤ) : ℚ) / 100

/-! ## Logistic fee (`OrderCreateSerializer._calculate_logistic_fee`,
orders/serializers.py lines 54–69) -/

/-- `_calculate_logistic_fee(subtotal)`:
* no settings row → `Decimal('0.00')`;
* `settings_obj.free_shipping_threshold and subtotal >= threshold`
  (a `Decimal` is truthy iff nonzero) → `Decimal('0.00')`;
* otherwise line 69 evaluates `settings_obj.shipping_fee`, an attribute
  `SettingsModel` does not declare, so Python raises `AttributeError`. -/
def calculate_logistic_fee (settingsObj : Option SettingsRow) (subtotal : ℚ) :
    Except PyExn ℚ :=
  match settingsObj with
  | none => .ok 0
  | some s =>
    if s.free_shipping_threshold ≠ 0 ∧ s.free_shipping_threshold ≤ subtotal then
      .ok 0
    else
      .error .attributeError

/-! ## Line-item price and quantity resolution
(`OrderCreateSerializer.create`, orders/serializers.py lines 81–116) -/

/-- The `price` entry of a cart-line dict as the client sent it. -/
inductive PricePayload where
  /-- the key is absent: `item.get('price', None)` is `None` -/
  | missing
  /-- the key maps to JSON `null` -/
  | null
  /-- a value for which `Decimal(str(price))` succeeds, with that value -/
  | num (q : ℚ)
  /-- a value for which `Decimal(str(price))` raises -/
  | malformed
deriving Repr, DecidableEq

/-- The `quantity` entry of a cart-line dict as the client sent it. -/
inductive QtyPayload where
  /-- the key is absent: `item.get('quantity', 1)` is `1` -/
  | missing
  /-- the key maps to JSON `null`: `None or 1` is `1` -/
  | null
  /-- a value `int()` converts to `n` -/
  | int (n : ℤ)
  /-- a value for which `int()` raises: the `except` arm yields `1` -/
  | malformed
deriving Repr, DecidableEq

/-- `qty = int(item.get('quantity', 1) or 1)` with the surrounding
`try/except` (lines 93–96).  `0 or 1` is `1` because `0` is falsy. -/
def pyQty : QtyPayload → ℤ
  | .missing => 1
  | .null => 1
  | .int n => if n = 0 then 1 else n
  | .malformed => 1

/-- Lines 99–103: `price = Decimal(str(price)) if price is not None else None`,
with the `except` arm setting `price = None`. -/
def clientPrice : PricePayload → Option ℚ
  | .num q => some q
  | _ => none

/-- Lines 99–112: the unit price actually used.  The client-supplied price
is preferred; `product_variant.price` is used only when the client price is
`None`/unparseable and the variant was found; otherwise `Decimal('0.00')`. -/
def resolve_price (p : PricePayload) (variant : Option ProductVariant) : ℚ :=
  match clientPrice p with
  | some q => q
  | none =>
    match variant with
    | some v => v.price
    | none => 0

/-- A cart-line dict after validation, with exactly the keys
`OrderCreateSerializer.create` reads. -/
structure ItemPayload where
  product_variant : Option Nat
  quantity : QtyPayload
  price : PricePayload
  product_name : String
  size : String
deriving Repr

/-- The validated order-level fields (`validated_data` after `items` is
popped). -/
structure OrderPayload where
  user : Option Nat
  customer_name : String
  customer_email : String
  customer_phone : String
  shipping_address : String
  payment_method : String
deriving Repr

/-- Lines 81–130: the item loop.  For each cart line, resolve the variant
(`ProductVariantModel.objects.get`, `DoesNotExist` → `None`), the quantity
and the price, insert the `OrderItemModel` row, and accumulate the
subtotal.  `itemInsertFail i` injects a database error raised while
inserting item `i` (the failure C5 quantifies over). -/
def insert_items (oid : String) (catalog : List ProductVariant)
    (itemInsertFail : Nat → Bool) :
    List ItemPayload → Nat → World → ℚ → Except PyExn (World × ℚ)
  | [], _, w, subtotal => .ok (w, subtotal)
  | item :: rest, i, w, subtotal =>
    let variant := item.product_variant.bind
      (fun vid => catalog.find? (fun v => v.id == vid))
    let qty := pyQty item.quantity
    let price := resolve_price item.price variant
    if itemInsertFail i then
      .error .databaseError
    else
      let row : ItemRow :=
        { order_oid := oid
          product_variant := variant.map (fun v => v.id)
          product_name := item.product_name
          size := item.size
          price := price
          quantity := qty }
      insert_items oid catalog itemInsertFail rest (i + 1)
        { w with items := w.items ++ [row] } (subtotal + price * qty)

/-- `OrderCreateSerializer.create` (orders/serializers.py lines 71–138).

`with transaction.atomic()` wraps the body: on any exception the store is
rolled back to its pre-call state.  The body:
1. inserts the order row with a temporary `total_amount` of `0.00`;
2. runs the item loop (`insert_items`);
3. computes the logistic fee (`calculate_logistic_fee`, which raises
   `AttributeError` when it reaches the `shipping_fee` read);
4. sets `order.logistic_price` / `order.total_amount` on the instance and
   calls `order.save(update_fields=['logistic_price', 'total_amount'])` —
   `OrderModel` declares no field named `logistic_price`, and Django's
   `Model.save` raises `ValueError` when `update_fields` names a
   non-existent field, so this step always raises. -/
def order_create (w : World) (validated : OrderPayload)
    (items : List ItemPayload) (catalog : List ProductVariant)
    (settingsRow : Option SettingsRow) (newOid : String)
    (itemInsertFail : Nat → Bool) : Except PyExn OrderRow × World :=
  let order0 : OrderRow :=
    { order_id := newOid
      user := validated.user
      customer_name := validated.customer_name
      customer_email := validated.customer_email
      customer_phone := validated.customer_phone
      shipping_address := validated.shipping_address
      payment_method := validated.payment_method
      status := "pending"
      total_amount := 0 }
  let w1 : World :=
    { w with orders := w.orders ++ [order0], saveCount := w.saveCount + 1 }
  let result : Except PyExn (OrderRow × World) :=
    match insert_items newOid catalog itemInsertFail items 0 w1 0 with
    | .error e => .error e
    | .ok (_, subtotal) =>
      match calculate_logistic_fee settingsRow subtotal with
      | .error e => .error e
      | .ok fee =>
        let _total := compute_total_amount subtotal fee
        .error .valueError
  match result with
  | .ok (o, w') => (.ok o, w')
  | .error e => (.error e, w)

/-! ## Views (orders/views.py) -/

/-- Body of a DRF `Response`, restricted to the shapes the two endpoints
build. -/
inductive RespBody where
  | successBody (order_id : String)
  | createdBody (order_id : String) (payment_required : Bool)
  | errorBody (msg : String)
deriving Repr, DecidableEq

/-- An HTTP response: status code plus body. -/
structure Resp where
  code : Nat
  body : RespBody
deriving Repr, DecidableEq

/-- `send_order_confirmation` (orders/views.py lines 24–68).  Every
exception is caught inside the function, so it returns a `Bool` and never
raises.  `emailOk` is the environment: whether the SMTP send actually goes
out (`msg.send(fail_silently=True)` hides a failed send from the caller).
A dispatched email is counted in `World.emailsSent`. -/
def send_order_confirmation (o : OrderRow) (w : World) (emailOk : Bool) :
    Bool × World :=
  if o.customer_email = "" then
    (false, w)
  else if emailOk then
    (true, { w with emailsSent := w.emailsSent + 1 })
  else
    (false, w)

/-- `getattr(order, 'is_paid', False)` (orders/views.py line 324):
`OrderModel` declares no `is_paid` field, so the default is returned. -/
def order_getattr_is_paid (_ : OrderRow) : Bool := false

/-- `getattr(order, 'payment_status', '')` (orders/views.py line 324):
`OrderModel` declares no `payment_status` field, so the default is
returned. -/
def order_getattr_payment_status (_ : OrderRow) : String := ""

/-- The `mark_paid_and_email` closure (orders/views.py lines 328–350).
`hasattr(order, 'payment_reference' / 'is_paid' / 'payment_status' /
'paid_at')` are all `False` for `OrderModel`, so only
`order.status = 'processing'` takes effect before `order.save()`; the
confirmation email is then attempted, with any failure logged. -/
def mark_paid_and_email (o : OrderRow) (_ref : String) (w : World)
    (emailOk : Bool) : World :=
  let o' := { o with status := "processing" }
  let w1 : World :=
    { w with
      orders := w.orders.map (fun r => if r.order_id = o.order_id then o' else r)
      saveCount := w.saveCount + 1 }
  (send_order_confirmation o' w1 emailOk).2

/-- The JSON body POSTed to the payment callback. -/
structure CallbackRequest where
  order_id : Option String
  reference : Option String
  status : Option String
  provider : Option String
deriving Repr

/-- The Django settings the callback reads. -/
structure GatewayCfg where
  paystack_secret : Option String
  flutterwave_secret : Option String
deriving Repr

/-- Outcome of `requests.get` against Paystack's verify endpoint:
either a `RequestException` (connection error or non-2xx via
`raise_for_status`), or a parsed payload with `status`,
`data.status` and `data.amount` (kobo). -/
inductive PaystackResult where
  | netError
  | resp (ok : Bool) (dataStatus : String) (amountKobo : ℤ)
deriving Repr

/-- Outcome of `requests.get` against Flutterwave's verify endpoint. -/
inductive FlutterwaveResult where
  | netError
  | resp (status : String) (dataStatus : String) (amount : ℚ)
deriving Repr

/-- ASCII lowercase of one character. -/
def lowerChar (c : Char) : Char :=
  if 'A' ≤ c ∧ c ≤ 'Z' then Char.ofNat (c.toNat + 32) else c

/-- Python's `str.lower()` on the ASCII inputs this flow compares
(`'success'`, `'paystack'`, `'flutterwave'`, the payment methods). -/
def pyLower (s : String) : String := String.mk (s.data.map lowerChar)

/-- Python truthiness of `data.get(k)` for a string-valued key. -/
def truthyStr (o : Option String) : Bool := o.getD "" != ""

/-- Python `int()` applied to a `Decimal`: truncation toward zero. -/
def pyIntTrunc (q : ℚ) : ℤ := if 0 ≤ q then ⌊q⌋ else -⌊-q⌋

/-- `PaymentCallbackView.post` (orders/views.py lines 299–405).

Control flow, in source order:
1. neither `order_id` nor `reference` truthy → 400;
2. resolve the order: a truthy `order_id` is looked up by `order_id`
   (`DoesNotExist` is caught, leaving `order = None`); otherwise the
   `elif reference:` arm runs
   `OrderModel.objects.filter(payment_reference=reference)` — `OrderModel`
   declares no `payment_reference` field, so Django raises `FieldError`,
   which `except OrderModel.DoesNotExist` does not catch: the request
   fails with an uncaught exception (HTTP 500);
3. `order` is `None` → 404;
4. idempotency guard: `getattr(order, 'is_paid', False)` and
   `getattr(order, 'payment_status', '')` — both attributes are missing,
   so the guard is always false;
5. `status == 'success'` → `mark_paid_and_email`, 200;
6. Paystack verification: on gateway success, compare the kobo amount
   with `int(order.total_amount * 100)`; mismatch → 400, match →
   `mark_paid_and_email`, 200; gateway non-success → 400; network
   error → 502;
7. Flutterwave verification, analogous with naira amounts;
8. otherwise → 400 "could not verify" (the source message is longer;
   it is abbreviated here and nothing compares its text). -/
def paymentCallbackPost (req : CallbackRequest) (w : World) (cfg : GatewayCfg)
    (ps : PaystackResult) (fw : FlutterwaveResult) (emailOk : Bool) :
    Except PyExn Resp × World :=
  let status_input := pyLower (req.status.getD "")
  let provider := pyLower (req.provider.getD "")
  if !(truthyStr req.order_id || truthyStr req.reference) then
    (.ok ⟨400, .errorBody "order_id or reference required."⟩, w)
  else if truthyStr req.order_id then
    match w.orders.find? (fun r => r.order_id == req.order_id.getD "") with
    | none => (.ok ⟨404, .errorBody "Order not found."⟩, w)
    | some o =>
      if order_getattr_is_paid o || (order_getattr_payment_status o == "paid") then
        (.ok ⟨200, .successBody o.order_id⟩, w)
      else if status_input == "success" then
        let ref := if truthyStr req.reference then req.reference.getD "" else ""
        (.ok ⟨200, .successBody o.order_id⟩, mark_paid_and_email o ref w emailOk)
      else if provider == "paystack" && truthyStr cfg.paystack_secret &&
          truthyStr req.reference then
        match ps with
        | .netError => (.ok ⟨502, .errorBody "Paystack verification failed."⟩, w)
        | .resp ok dataStatus amountKobo =>
          if ok && (dataStatus == "success") then
            let expected := pyIntTrunc (o.total_amount * 100)
            if amountKobo = expected then
              (.ok ⟨200, .successBody o.order_id⟩,
                mark_paid_and_email o (req.reference.getD "") w emailOk)
            else
              (.ok ⟨400, .errorBody "Amount mismatch"⟩, w)
          else
            (.ok ⟨400, .errorBody "Paystack reports unsuccessful transaction."⟩, w)
      else if provider == "flutterwave" && truthyStr cfg.flutterwave_secret &&
          truthyStr req.reference then
        match fw with
        | .netError => (.ok ⟨502, .errorBody "Flutterwave verification failed."⟩, w)
        | .resp st dataStatus amount =>
          if (st == "success") && (dataStatus == "successful") then
            if amount = o.total_amount then
              (.ok ⟨200, .successBody o.order_id⟩,
                mark_paid_and_email o (req.reference.getD "") w emailOk)
            else
              (.ok ⟨400, .errorBody "Amount mismatch"⟩, w)
          else
            (.ok ⟨400, .errorBody "Flutterwave reports unsuccessful transaction."⟩, w)
      else
        (.ok ⟨400, .errorBody "Could not verify payment."⟩, w)
  else
    (.error .fieldError, w)

/-- `OrderCreateView.post` (orders/views.py lines 76–106), after a payload
that passed serializer validation.  `serializer.save()` delegates to
`order_create`; any exception becomes a 500.  On success the confirmation
email is sent immediately only for `pay_on_delivery`, and the response
carries `payment_required = (payment_method == 'online')`. -/
def orderCreatePost (w : World) (validated : OrderPayload)
    (items : List ItemPayload) (catalog : List ProductVariant)
    (settingsRow : Option SettingsRow) (newOid : String)
    (itemInsertFail : Nat → Bool) (emailOk : Bool) : Resp × World :=
  match order_create w validated items catalog settingsRow newOid itemInsertFail with
  | (.error _, w') => (⟨500, .errorBody "Failed to create order"⟩, w')
  | (.ok o, w') =>
    let pm := pyLower o.payment_method
    let w'' := if pm == "pay_on_delivery" then (send_order_confirmation o w' emailOk).2 else w'
    (⟨201, .createdBody o.order_id (pm == "online")⟩, w'')

/-! ## Concrete scenario data shared by several theorems -/

/-- A stored order used in the callback scenarios. -/
def sampleOrder : OrderRow :=
  { order_id := "MM100001"
    user := none
    customer_name := "Ada"
    customer_email := "ada@example.com"
    customer_phone := "0800"
    shipping_address := "12 Market Road"
    payment_method := "online"
    status := "pending"
    total_amount := 5000 }

/-- A store holding exactly `sampleOrder`, with no side effects yet. -/
def sampleWorld : World :=
  { orders := [sampleOrder], items := [], saveCount := 0, emailsSent := 0 }

/-- Django settings with no gateway secrets configured. -/
def noGateway : GatewayCfg := { paystack_secret := none, flutterwave_secret := none }

/-- The validated order-level fields used in the creation scenarios. -/
def samplePayload : OrderPayload :=
  { user := none
    customer_name := "Ada"
    customer_email := "ada@example.com"
    customer_phone := "0800"
    shipping_address := "12 Market Road"
    payment_method := "online" }

/-- The spec's own scenario cart: variant A (price 5000) × 2 and variant B
(price 15000) × 1, subtotal 25000. -/
def specCart : List ItemPayload :=
  [⟨some 1, .int 2, .missing, "Foam Mattress", "L"⟩,
   ⟨some 2, .int 1, .missing, "Spring Mattress", "XL"⟩]

/-- The catalog backing `specCart`. -/
def specCatalog : List ProductVariant := [⟨1, 5000⟩, ⟨2, 15000⟩]

/-! ## Helper lemmas -/

/-- `roundHalfEvenInt` returns an integer within half a unit of its
argument, and on a tie it returns the even one. -/
theorem roundHalfEvenInt_spec (x : ℚ) :
    |x - roundHalfEvenInt x| ≤ 1/2 ∧
      (|x - roundHalfEvenInt x| = 1/2 → roundHalfEvenInt x % 2 = 0) := by
  have h0 : (⌊x⌋ : ℚ) ≤ x := Int.floor_le x
  have h1 : x < ⌊x⌋ + 1 := Int.lt_floor_add_one x
  unfold roundHalfEvenInt
  by_cases hlt : x - ⌊x⌋ < 1/2
  · rw [if_pos hlt]
    constructor
    · rw [abs_of_nonneg (by linarith)]
      linarith
    · intro habs
      rw [abs_of_nonneg (by linarith)] at habs
      linarith
  · rw [if_neg hlt]
    by_cases hgt : 1/2 < x - ⌊x⌋
    · rw [if_pos hgt]
      push_cast
      constructor
      · rw [abs_of_nonpos (by linarith)]
        linarith
      · intro habs
        rw [abs_of_nonpos (by linarith)] at habs
        linarith
    · rw [if_neg hgt]
      have htie : x - ⌊x⌋ = 1/2 := by
        push_neg at hlt hgt
        linarith
      by_cases hev : (⌊x⌋ : ℤ) % 2 = 0
      · rw [if_pos hev]
        constructor
        · rw [abs_of_nonneg (by linarith)]
          linarith
        · intro _
          exact hev
      · rw [if_neg hev]
        push_cast
        constructor
        · rw [abs_of_nonpos (by linarith)]
          linarith
        · intro _
          have h2 : (⌊x⌋ : ℤ) % 2 = 0 ∨ (⌊x⌋ : ℤ) % 2 = 1 := Int.emod_two_eq_zero_or_one _
          omega

/-- `roundHalfEvenInt` is the identity on integers. -/
theorem roundHalfEvenInt_intCast (n : ℤ) : roundHalfEvenInt (n : ℚ) = n := by
  unfold roundHalfEvenInt
  rw [Int.floor_intCast]
  rw [if_pos (by norm_num)]

/-- `quantize2` fixes every whole number of cents. -/
theorem quantize2_cents (n : ℤ) : quantize2 ((n : ℚ) / 100) = (n : ℚ) / 100 := by
  unfold quantize2
  have h : ((n : ℚ) / 100) * 100 = (n : ℚ) := by
    field_simp
  rw [h, roundHalfEvenInt_intCast]

/-! ## The claims -/

/-- Claim C1, counterexample: the claim says the catalog variant's current
price is preferred and the client-supplied price is used only if the
variant lookup fails.  On a line with client price `30` and a successfully
resolved variant priced `50`, the code resolves `30`, not the variant's
`50`. -/
theorem C1_counterexample :
    resolve_price (.num 30) (some ⟨7, 50⟩) = 30 ∧
      resolve_price (.num 30) (some ⟨7, 50⟩) ≠ (50 : ℚ) := by
  constructor
  · rfl
  · show (30 : ℚ) ≠ 50
    norm_num

/-- Claim C1 (amended): for every cart line the unit price prefers the
client-supplied price whenever it parses as a decimal; the catalog
variant's price is used only when the client price is absent or
unparseable and the variant lookup succeeds; and it defaults to zero when
neither resolves. -/
theorem C1_amended_price_resolution (q : ℚ) (vv : ProductVariant)
    (p : PricePayload) (hp : clientPrice p = none) :
    resolve_price (.num q) (some vv) = q ∧
      resolve_price p (some vv) = vv.price ∧
      resolve_price p none = 0 := by
  refine ⟨rfl, ?_, ?_⟩ <;> unfold resolve_price <;> rw [hp]

/-- Witness for C1: instantiated at client price `30`, a variant priced
`50`, and an absent client price. -/
theorem C1_amended_price_resolution_witness :
    clientPrice .missing = none ∧
      (resolve_price (.num 30) (some ⟨7, 50⟩) = 30 ∧
        resolve_price .missing (some ⟨7, 50⟩) = (⟨7, 50⟩ : ProductVariant).price ∧
        resolve_price .missing none = 0) :=
  ⟨rfl, C1_amended_price_resolution 30 ⟨7, 50⟩ .missing rfl⟩

/-- Claim C4, counterexample: the claim says the cent rounding is
round-half-up, so a third decimal digit of exactly 5 always rounds the
cent up.  At `subtotal = 1.005`, `fee = 0` the code computes `1.00`
(`Decimal.quantize` defaults to half-even and `0` is even), while
half-up yields `1.01`. -/
theorem C4_counterexample :
    compute_total_amount (201/200) 0 = 1 ∧
      specRoundHalfUp2 ((201:ℚ)/200 + 0) = 101/100 ∧
      compute_total_amount (201/200) 0 ≠ specRoundHalfUp2 ((201:ℚ)/200 + 0) := by
  refine ⟨?_, ?_, ?_⟩ <;>
    norm_num [compute_total_amount, quantize2, roundHalfEvenInt, specRoundHalfUp2]

/-- Claim C4 (amended): `total_amount` is `subtotal + fee` rounded to two
decimal places with round-half-even (banker's) semantics — the result is
a whole number of cents within half a cent of `subtotal + fee`, and a tie
at the third decimal goes to the even cent. -/
theorem C4_total_rounds_half_even (s f : ℚ) :
    ∃ n : ℤ, compute_total_amount s f = (n : ℚ) / 100 ∧
      |(s + f) * 100 - (n : ℚ)| ≤ 1/2 ∧
      (|(s + f) * 100 - (n : ℚ)| = 1/2 → n % 2 = 0) := by
  refine ⟨roundHalfEvenInt ((s + f) * 100), rfl, ?_, ?_⟩
  · exact (roundHalfEvenInt_spec ((s + f) * 100)).1
  · exact (roundHalfEvenInt_spec ((s + f) * 100)).2

/-- Witness for C4: the rounding characterization at `subtotal = 1.005`,
`fee = 0`. -/
theorem C4_total_rounds_half_even_witness :
    ∃ n : ℤ, compute_total_amount (201/200) 0 = (n : ℚ) / 100 ∧
      |((201:ℚ)/200 + 0) * 100 - (n : ℚ)| ≤ 1/2 ∧
      (|((201:ℚ)/200 + 0) * 100 - (n : ℚ)| = 1/2 → n % 2 = 0) :=
  C4_total_rounds_half_even (201/200) 0

/-- Claim C9, counterexample: with no settings row the fee is `0.00`, but
the claim's conclusion `total_amount = subtotal` fails for a subtotal of
`1.005`: line 135 quantizes to `1.00`. -/
theorem C9_counterexample :
    calculate_logistic_fee none (201/200) = .ok 0 ∧
      compute_total_amount (201/200) 0 = 1 ∧
      compute_total_amount (201/200) 0 ≠ (201:ℚ)/200 := by
  refine ⟨rfl, ?_, ?_⟩ <;>
    norm_num [compute_total_amount, quantize2, roundHalfEvenInt]

/-- Claim C9 (amended): if no settings row exists, the logistic fee is
exactly `0.00` and the computed `total_amount` is the subtotal rounded to
cents — equal to the subtotal whenever the subtotal is a whole number of
cents. -/
theorem C9_no_settings_fee_zero (s : ℚ) :
    calculate_logistic_fee none s = .ok 0 ∧
      compute_total_amount s 0 = quantize2 s ∧
      (∀ n : ℤ, s = (n : ℚ) / 100 → compute_total_amount s 0 = s) := by
  refine ⟨rfl, by rw [compute_total_amount, add_zero], ?_⟩
  intro n hn
  rw [compute_total_amount, add_zero, hn, quantize2_cents]

/-- Witness for C9: instantiated at the cent-valued subtotal `1.50`. -/
theorem C9_no_settings_fee_zero_witness :
    calculate_logistic_fee none (3/2) = .ok 0 ∧
      compute_total_amount (3/2) 0 = (3:ℚ)/2 :=
  ⟨(C9_no_settings_fee_zero (3/2)).1,
    (C9_no_settings_fee_zero (3/2)).2.2 150 (by norm_num)⟩

/-- Claim C10: with a configured free-shipping threshold of zero the
free-shipping branch is indeed disabled (`free_shipping_threshold and …`
is falsy), so the code goes on to charge the flat fee — but the flat-fee
expression reads `settings_obj.shipping_fee`, an attribute `SettingsModel`
does not declare, so instead of charging the fee the serializer raises
`AttributeError` and order creation fails.  Evaluated at a settings row
with threshold `0` and subtotal `100`. -/
theorem C10_flat_fee_read_raises :
    calculate_logistic_fee
      (some { allow_pay_on_delivery := true, allow_online_payment := true,
              free_shipping_threshold := 0, terms_and_conditions := "" }) 100
      = .error .attributeError := by
  simp [calculate_logistic_fee]

/-- Claim C2: the payment callback is not idempotent.  `OrderModel`
declares neither `is_paid` nor `payment_status`, so the already-paid guard
(line 324) is always false: a second trusted-success callback for the same
order re-runs `mark_paid_and_email`, saving the order a second time and
sending a second confirmation email. -/
theorem C2_second_callback_resends_email :
    (paymentCallbackPost ⟨some "MM100001", some "ref-1", some "success", none⟩
        sampleWorld noGateway .netError .netError true).1
      = .ok ⟨200, .successBody "MM100001"⟩ ∧
    (paymentCallbackPost ⟨some "MM100001", some "ref-1", some "success", none⟩
        sampleWorld noGateway .netError .netError true).2.emailsSent = 1 ∧
    (paymentCallbackPost ⟨some "MM100001", some "ref-1", some "success", none⟩
        (paymentCallbackPost ⟨some "MM100001", some "ref-1", some "success", none⟩
          sampleWorld noGateway .netError .netError true).2
        noGateway .netError .netError true).1
      = .ok ⟨200, .successBody "MM100001"⟩ ∧
    (paymentCallbackPost ⟨some "MM100001", some "ref-1", some "success", none⟩
        (paymentCallbackPost ⟨some "MM100001", some "ref-1", some "success", none⟩
          sampleWorld noGateway .netError .netError true).2
        noGateway .netError .netError true).2.emailsSent = 2 ∧
    (paymentCallbackPost ⟨some "MM100001", some "ref-1", some "success", none⟩
        (paymentCallbackPost ⟨some "MM100001", some "ref-1", some "success", none⟩
          sampleWorld noGateway .netError .netError true).2
        noGateway .netError .netError true).2.saveCount = 2 :=
  ⟨rfl, rfl, rfl, rfl, rfl⟩

/-- Claim C7: a callback carrying only a gateway `reference` (no
`order_id`) does not resolve the order and does not return 404: the
lookup `OrderModel.objects.filter(payment_reference=reference)` raises
`FieldError` (no such field on `OrderModel`), which the
`except OrderModel.DoesNotExist` handler does not catch, so the request
fails with an uncaught exception instead of the claimed NotFound. -/
theorem C7_reference_only_lookup_raises :
    paymentCallbackPost ⟨none, some "ref-1", none, none⟩ sampleWorld
      noGateway .netError .netError true = (.error .fieldError, sampleWorld) :=
  rfl

/-- Claim C8: for both the order-creation endpoint and the payment
callback, whether the confirmation email goes out or not never changes
the HTTP response: `send_order_confirmation` swallows every failure and
its callers ignore its result. -/
theorem C8_email_failure_never_changes_response
    (req : CallbackRequest) (w : World) (cfg : GatewayCfg)
    (ps : PaystackResult) (fw : FlutterwaveResult)
    (validated : OrderPayload) (items : List ItemPayload)
    (catalog : List ProductVariant) (settingsRow : Option SettingsRow)
    (newOid : String) (fail : Nat → Bool) :
    (paymentCallbackPost req w cfg ps fw true).1
      = (paymentCallbackPost req w cfg ps fw false).1 ∧
    (orderCreatePost w validated items catalog settingsRow newOid fail true).1
      = (orderCreatePost w validated items catalog settingsRow newOid fail false).1 := by
  constructor
  · unfold paymentCallbackPost
    dsimp only
    repeat' split <;> try rfl
  · unfold orderCreatePost
    dsimp only
    repeat' split <;> try rfl

/-- Claim C6: in the server-verified Paystack path, when the gateway
reports a successful transaction whose kobo amount differs from
`int(order.total_amount * 100)`, the callback answers 400 "Amount
mismatch" and the store is untouched: the order is not marked paid and no
email is sent. -/
theorem C6_paystack_amount_mismatch_rejected
    (w : World) (o : OrderRow) (oid ref : String) (a : ℤ)
    (fw : FlutterwaveResult) (emailOk : Bool)
    (hoid : oid ≠ "") (href : ref ≠ "")
    (hfind : w.orders.find? (fun r => r.order_id == oid) = some o)
    (ha : a ≠ pyIntTrunc (o.total_amount * 100)) :
    paymentCallbackPost ⟨some oid, some ref, none, some "paystack"⟩ w
      ⟨some "sk_live_key", none⟩ (.resp true "success" a) fw emailOk
      = (.ok ⟨400, .errorBody "Amount mismatch"⟩, w) := by
  have hb : (oid != "") = true := by simp [hoid]
  unfold paymentCallbackPost
  dsimp only
  simp only [truthyStr, Option.getD, hb, hfind]
  simp [order_getattr_is_paid, order_getattr_payment_status, pyLower, lowerChar,
    href, ha]

/-- Witness for C6: the stored order totals `5000`, the gateway reports
`499999` kobo instead of `500000`. -/
theorem C6_paystack_amount_mismatch_rejected_witness :
    (499999 : ℤ) ≠ pyIntTrunc (sampleOrder.total_amount * 100) ∧
      paymentCallbackPost ⟨some "MM100001", some "ref-1", none, some "paystack"⟩
        sampleWorld ⟨some "sk_live_key", none⟩ (.resp true "success" 499999)
        .netError true
        = (.ok ⟨400, .errorBody "Amount mismatch"⟩, sampleWorld) := by
  have ha : (499999 : ℤ) ≠ pyIntTrunc (sampleOrder.total_amount * 100) := by
    norm_num [pyIntTrunc, sampleOrder]
  exact ⟨ha, C6_paystack_amount_mismatch_rejected sampleWorld sampleOrder
    "MM100001" "ref-1" 499999 .netError true (by decide) (by decide) rfl ha⟩

/-- If some item insert in the loop raises, the whole loop raises the
database error (the later items are never attempted). -/
theorem insert_items_error_of_fail (oid : String) (catalog : List ProductVariant)
    (fail : Nat → Bool) :
    ∀ (items : List ItemPayload) (i0 : Nat) (w : World) (s : ℚ),
      (∃ j, j < items.length ∧ fail (i0 + j) = true) →
      insert_items oid catalog fail items i0 w s = .error .databaseError := by
  intro items
  induction items with
  | nil =>
    rintro i0 w s ⟨j, hj, _⟩
    simp at hj
  | cons item rest ih =>
    rintro i0 w s ⟨j, hj, hf⟩
    by_cases h0 : fail i0 = true
    · simp [insert_items, h0]
    · have hj0 : j ≠ 0 := by
        rintro rfl
        rw [Nat.add_zero] at hf
        exact h0 hf
      obtain ⟨j', rfl⟩ : ∃ j', j = j' + 1 := ⟨j - 1, by omega⟩
      have hf' : fail ((i0 + 1) + j') = true := by
        have : (i0 + 1) + j' = i0 + (j' + 1) := by omega
        rw [this]
        exact hf
      simp only [insert_items, h0, Bool.false_eq_true, if_false]
      exact ih (i0 + 1) _ _ ⟨j', by simpa using hj, hf'⟩

/-- Claim C5: `create` runs inside `transaction.atomic`, so when any item
insert fails the whole transaction rolls back: the store is exactly the
pre-call store and holds zero order rows and zero item rows for the new
order id. -/
theorem C5_order_create_rolls_back_on_item_failure
    (w : World) (validated : OrderPayload) (items : List ItemPayload)
    (catalog : List ProductVariant) (settingsRow : Option SettingsRow)
    (newOid : String) (fail : Nat → Bool)
    (hfail : ∃ j, j < items.length ∧ fail j = true)
    (hfreshO : ∀ r ∈ w.orders, r.order_id ≠ newOid)
    (hfreshI : ∀ it ∈ w.items, it.order_oid ≠ newOid) :
    (order_create w validated items catalog settingsRow newOid fail).1
        = .error .databaseError ∧
      (order_create w validated items catalog settingsRow newOid fail).2 = w ∧
      (order_create w validated items catalog settingsRow newOid fail).2.orders.filter
          (fun r => r.order_id == newOid) = [] ∧
      (order_create w validated items catalog settingsRow newOid fail).2.items.filter
          (fun it => it.order_oid == newOid) = [] := by
  obtain ⟨j, hj, hf⟩ := hfail
  have hcreate :
      order_create w validated items catalog settingsRow newOid fail
        = (.error .databaseError, w) := by
    unfold order_create
    dsimp only
    rw [insert_items_error_of_fail newOid catalog fail items 0 _ 0
      ⟨j, hj, by simpa using hf⟩]
  refine ⟨by rw [hcreate], by rw [hcreate], ?_, ?_⟩
  · rw [hcreate]
    simp only [List.filter_eq_nil_iff]
    intro r hr
    simpa using hfreshO r hr
  · rw [hcreate]
    simp only [List.filter_eq_nil_iff]
    intro it hit
    simpa using hfreshI it hit

/-- Witness for C5: a one-line cart whose insert fails against the sample
store; the store is unchanged and holds no rows for the fresh id. -/
theorem C5_order_create_rolls_back_witness :
    (order_create sampleWorld samplePayload
        [⟨none, .missing, .missing, "Foam Mattress", "L"⟩] [] none "MM200001"
        (fun _ => true)).1 = .error .databaseError ∧
      (order_create sampleWorld samplePayload
        [⟨none, .missing, .missing, "Foam Mattress", "L"⟩] [] none "MM200001"
        (fun _ => true)).2 = sampleWorld ∧
      (order_create sampleWorld samplePayload
        [⟨none, .missing, .missing, "Foam Mattress", "L"⟩] [] none "MM200001"
        (fun _ => true)).2.orders.filter (fun r => r.order_id == "MM200001") = [] ∧
      (order_create sampleWorld samplePayload
        [⟨none, .missing, .missing, "Foam Mattress", "L"⟩] [] none "MM200001"
        (fun _ => true)).2.items.filter (fun it => it.order_oid == "MM200001") = [] :=
  C5_order_create_rolls_back_on_item_failure sampleWorld samplePayload
    [⟨none, .missing, .missing, "Foam Mattress", "L"⟩] [] none "MM200001"
    (fun _ => true) ⟨0, by decide, rfl⟩
    (by intro r hr; simp [sampleWorld, sampleOrder] at hr; rw [hr]; decide)
    (by intro it hit; simp [sampleWorld] at hit)

/-- Claim C3: the claim's "created order" never exists.  On the spec's own
scenario (subtotal 25000, threshold 30000, expecting `fee = flat fee`),
the flat-fee branch reads the non-existent `SettingsModel.shipping_fee`
and raises `AttributeError`; on the free-shipping scenario (threshold
20000, `fee = 0`), the final
`order.save(update_fields=['logistic_price', 'total_amount'])` raises
`ValueError` because `OrderModel` has no `logistic_price` field.  Either
way the transaction rolls back and no order row is created, so no created
order satisfies `total_amount = subtotal + shipping_fee`. -/
theorem C3_order_creation_never_succeeds :
    order_create sampleWorld samplePayload specCart specCatalog
        (some { allow_pay_on_delivery := true, allow_online_payment := true,
                free_shipping_threshold := 30000, terms_and_conditions := "" })
        "MM200001" (fun _ => false)
      = (.error .attributeError, sampleWorld) ∧
    order_create sampleWorld samplePayload specCart specCatalog
        (some { allow_pay_on_delivery := true, allow_online_payment := true,
                free_shipping_threshold := 20000, terms_and_conditions := "" })
        "MM200001" (fun _ => false)
      = (.error .valueError, sampleWorld) := by
  constructor <;>
    norm_num [order_create, insert_items, calculate_logistic_fee, specCart,
      specCatalog, resolve_price, clientPrice, pyQty]

end MattressMarket
